import Mathlib

/-!
Shallow embedding of the CURSED-RemoteID edge receiver
(`raspi_remoteid_receiver/core/`): the CSV batcher (`csv_creator.py`),
the uploader (`aws_communicator.py`), the channel sweeper
(`channel_swapper.py`) and the delete helper (`helpers.py`), together
with theorems settling the frozen claims about them.

Conventions of the embedding:
* Python `str` values are Lean `String`s; character-level work is done on
  `String.data : List Char`.
* Python `int` is `Int`, Python `float` is `ℚ` (every float arithmetic
  step performed by the embedded code — `%`, `-`, `+`, `/` on timestamp
  and altitude values of realistic magnitude — is exact on IEEE doubles,
  so the rational semantics agrees with the float semantics there).
* A Python function that can raise is an `Except` value; an attribute
  that can be absent (pyshark raises `AttributeError`) is an `Option`
  field.
-/

namespace RemoteID

/-- ASCII uppercasing of one character, the effect of Python `str.upper`
on the ASCII range (all characters relevant to `is_valid_src_addr`). -/
def upperChar (c : Char) : Char :=
  if 'a' ≤ c ∧ c ≤ 'z' then Char.ofNat (c.toNat - 32) else c

/-- ASCII lowercasing of one character, the effect of Python `str.lower`
on the ASCII range. -/
def lowerChar (c : Char) : Char :=
  if 'A' ≤ c ∧ c ≤ 'Z' then Char.ofNat (c.toNat + 32) else c

/-- Python `str.upper` (ASCII fragment). -/
def pyUpper (s : String) : String := String.mk (s.data.map upperChar)

/-- Python `str.lower` (ASCII fragment). -/
def pyLower (s : String) : String := String.mk (s.data.map lowerChar)

/-- Character class `[0-9A-F]` of the source-address regex in
`csv_creator.is_valid_src_addr`. -/
def isUpperHexDigit (c : Char) : Bool :=
  (decide ('0' ≤ c) && decide (c ≤ '9')) ||
    (decide ('A' ≤ c) && decide (c ≤ 'F'))

/-- Matcher for `(?:[0-9A-F]{2}:){5}[0-9A-F]{2}` anchored to the end of
the input: `matchOctets n l` holds when `l` is exactly `n + 1`
colon-separated upper-case-hex octets. -/
def matchOctets : Nat → List Char → Bool
  | 0, l =>
    match l with
    | [a, b] => isUpperHexDigit a && isUpperHexDigit b
    | _ => false
  | n + 1, l =>
    match l with
    | a :: b :: c :: rest =>
      isUpperHexDigit a && isUpperHexDigit b && c == ':' &&
        matchOctets n rest
    | _ => false

/-- Full anchored match of
`\A(?:MAC|BDA)-(?:[0-9A-F]{2}:){5}[0-9A-F]{2}\Z`
(`re.match` with `\A`/`\Z` anchors is a full match). -/
def srcAddrMatch : List Char → Bool
  | p1 :: p2 :: p3 :: p4 :: rest =>
    ((p1 == 'M' && p2 == 'A' && p3 == 'C') ||
      (p1 == 'B' && p2 == 'D' && p3 == 'A')) &&
      p4 == '-' && matchOctets 5 rest
  | _ => false

/-- Embedding of `csv_creator.is_valid_src_addr`.  `none` is Python
`None` (the function first tests `src_addr is None`). -/
def is_valid_src_addr (src_addr : Option String) : Bool :=
  match src_addr with
  | none => false
  | some s => srcAddrMatch s.data

/-- Character class `[0-9a-zA-Z_\- ]` kept by the `re.sub` in
`CSVCreatorThread.create_row` when it sanitizes the unique id. -/
def allowedIdChar (c : Char) : Bool :=
  (decide ('0' ≤ c) && decide (c ≤ '9')) ||
    (decide ('a' ≤ c) && decide (c ≤ 'z')) ||
    (decide ('A' ≤ c) && decide (c ≤ 'Z')) ||
    c == '_' || c == '-' || c == ' '

/-- Python `re.sub(r"[^0-9a-zA-Z_\- ]+", "", u)`: deleting every maximal
run of disallowed characters is the same as keeping the allowed ones. -/
def removeDisallowed (l : List Char) : List Char := l.filter allowedIdChar

/-- Python `str.strip()` applied after `removeDisallowed`: of Python's
whitespace set only `' '` survives the character filter, so stripping
spaces from both ends is exact. -/
def stripSpaces (l : List Char) : List Char :=
  ((l.dropWhile (fun c => c == ' ')).reverse.dropWhile
    (fun c => c == ' ')).reverse

/-- The unique-id normalization of `create_row`:
`re.sub(r"[^0-9a-zA-Z_\- ]+", "", unique_id).strip()`. -/
def sanitizeUniqueId (s : String) : String :=
  String.mk (stripSpaces (removeDisallowed s.data))

/-- Python floor division `a // b` on integers. -/
def pyIntDiv (a b : Int) : Int := Int.fdiv a b

/-- Python `a % b` on integers: `a - b * (a // b)` (sign of the
divisor; for the positive divisors used here it is the non-negative
residue). -/
def pyIntMod (a b : Int) : Int := a - b * Int.fdiv a b

/-- Python `x % y` on floats for the exact rational semantics:
`x - y * floor(x / y)` (sign of the divisor). -/
def pyModQ (x y : ℚ) : ℚ := x - y * ((x / y).floor : ℤ)

/-- Python `min` on two numbers: the first argument when it is not
greater. -/
def pyMinQ (x y : ℚ) : ℚ := if x ≤ y then x else y

/-- Decidable equality for `Except` results, so concrete runs of the
embedded functions can be checked by `decide`. -/
instance {ε α : Type} [DecidableEq ε] [DecidableEq α] :
    DecidableEq (Except ε α) := fun a b =>
  match a, b with
  | .error x, .error y =>
    if h : x = y then .isTrue (congrArg Except.error h)
    else .isFalse (fun hh => h (Except.error.inj hh))
  | .ok x, .ok y =>
    if h : x = y then .isTrue (congrArg Except.ok h)
    else .isFalse (fun hh => h (Except.ok.inj hh))
  | .error _, .ok _ => .isFalse Except.noConfusion
  | .ok _, .error _ => .isFalse Except.noConfusion

/-- Fields of `pkt.opendroneid`, the dissector layer navigated by
`CSVCreatorThread.create_row`.  Each pyshark attribute that may be
absent (an `AttributeError` in the source) is an `Option`; fields that
the source immediately passes through `int(...)` are modelled as `Int`,
fields that are written to the CSV verbatim stay `String`. -/
structure ODIDData where
  basicid_id_asc : Option String
  loc_timestamp : Option Int
  loc_direction : Option String
  loc_speed : Option String
  loc_vspeed : Option String
  loc_lat : Option String
  loc_lon : Option String
  loc_geoalt : Option Int
  loc_vaccuracy : Option Int
  loc_speedaccuracy : Option Int
  loc_haccuracy : Option Int
  loc_pressalt : Option Int
  loc_baroaccuracy : Option Int
  loc_height : Option Int
  loc_flag_heighttype : Option Int
  deriving DecidableEq, Repr

/-- A parsed frame as `create_row` sees it: the BLE advertising
address (`pkt.btle.advertising_address`), the Wi-Fi source address
(`pkt.wlan.sa`), the frame epoch time (`pkt.frame_info.time_epoch`,
a float) and the Open Drone ID layer. -/
structure Packet where
  btle_advertising_address : Option String
  wlan_sa : Option String
  frame_time_epoch : Option ℚ
  opendroneid : Option ODIDData
  deriving DecidableEq, Repr

/-- The two exception classes raised by `create_row`
(`MissingPacketFieldError` / `InvalidPacketFieldError`, both caught by
the window loop in `CSVCreatorThread.run`). -/
inductive PacketErr where
  | missingField (msg : String)
  | invalidField (msg : String)
  deriving DecidableEq, Repr

/-- One data row of the CSV, in the order the source appends the
values.  The `timestamp` string of the source is represented by the
clamped epoch-second value fed to `time.gmtime`/`time.strftime`
(`timestampSecs`) together with the appended tenths digit
(`timestampTenth`); the calendar rendering `YYYY-MM-DD HH:MM:SS` is a
fixed injective function of `timestampSecs` and is not re-modelled. -/
structure Row where
  src_addr : String
  unique_id : String
  timestampSecs : ℚ
  timestampTenth : Int
  heading : String
  gnd_speed : String
  vert_speed : String
  lat : String
  lon : String
  geo_alt : Int
  speed_acc : Int
  horz_acc : Int
  geo_vert_acc : Int
  baro_alt : ℚ
  baro_alt_acc : Int
  height : ℚ
  height_type : Int
  deriving DecidableEq, Repr

/-- Lines 255-273 of `csv_creator.py`: pick the BLE advertising address
(prefix `BDA-`) or else the Wi-Fi source address (prefix `MAC-`),
upper-case it, and validate it with `is_valid_src_addr`. -/
def srcAddrOf (pkt : Packet) : Except PacketErr String :=
  match pkt.btle_advertising_address with
  | some a =>
    let s := pyUpper ("BDA-" ++ a)
    if is_valid_src_addr (some s) then Except.ok s
    else Except.error (.invalidField ("Invalid Source Address: " ++ s))
  | none =>
    match pkt.wlan_sa with
    | some a =>
      let s := pyUpper ("MAC-" ++ a)
      if is_valid_src_addr (some s) then Except.ok s
      else Except.error (.invalidField ("Invalid Source Address: " ++ s))
    | none => Except.error (.missingField "Missing Source Address")

/-- Lines 282-293: sanitize `opendroneid_basicid_id_asc` and reject ids
longer than 20 characters. -/
def uniqueIdOf (o : ODIDData) : Except PacketErr String :=
  match o.basicid_id_asc with
  | none => Except.error (.missingField "Missing Unique ID")
  | some u =>
    let uid := sanitizeUniqueId u
    if uid.length > 20 then
      Except.error (.invalidField ("Invalid Unique ID: " ++ uid))
    else Except.ok uid

/-- Lines 295-320: reconstruct the absolute timestamp.  The source
computes `time_since_utc_hour = int(loc_timestamp) % 3600` (deciseconds
reduced mod 3600), then
`epoch - epoch % 3600 + time_since_utc_hour // 10`, clamps it with
`min(..., now)` and appends `"." + str(time_since_utc_hour % 10)`. -/
def timestampOf (pkt : Packet) (o : ODIDData) (now : Int) :
    Except PacketErr (ℚ × Int) :=
  match pkt.frame_time_epoch with
  | none => Except.error (.missingField "Missing Epoch Timestamp")
  | some epoch =>
    match o.loc_timestamp with
    | none =>
      Except.error (.missingField "Missing Location Message Timestamp")
    | some ts =>
      let time_since_utc_hour : Int := pyIntMod ts 3600
      let remote : ℚ :=
        epoch - pyModQ epoch 3600 +
          ((pyIntDiv time_since_utc_hour 10 : Int) : ℚ)
      Except.ok (pyMinQ remote (now : ℚ), pyIntMod time_since_utc_hour 10)

/-- Lines 322-330: the five location fields fetched in one `try`
block; any missing attribute raises the same error. -/
def locFieldsOf (o : ODIDData) :
    Except PacketErr (String × String × String × String × String) :=
  match o.loc_direction, o.loc_speed, o.loc_vspeed, o.loc_lat,
      o.loc_lon with
  | some h, some gs, some vs, some la, some lo =>
    Except.ok (h, gs, vs, la, lo)
  | _, _, _, _, _ =>
    Except.error (.missingField "Something in location message")

/-- Lines 332-339: geodetic altitude is required. -/
def geoAltOf (o : ODIDData) : Except PacketErr Int :=
  match o.loc_geoalt with
  | none => Except.error (.missingField "Missing Geodetic Altitude")
  | some v => Except.ok v

/-- Lines 341-353: geodetic vertical accuracy is required and a value
outside `[0, 15]` raises `InvalidPacketFieldError` (the source's TODO
notes that coercing to 0 was considered but not done). -/
def geoVertAccOf (o : ODIDData) : Except PacketErr Int :=
  match o.loc_vaccuracy with
  | none =>
    Except.error (.missingField "Missing Geodetic Vertical Accuracy")
  | some v =>
    if ¬(0 ≤ v ∧ v ≤ 15) then
      Except.error (.invalidField "Geodetic Vertical Accuracy")
    else Except.ok v

/-- Lines 355-376: speed accuracy is required; `> 15` is reset to 0,
then `< 0` is reset to 0 (the `> 4` branch only logs a warning). -/
def speedAccOf (o : ODIDData) : Except PacketErr Int :=
  match o.loc_speedaccuracy with
  | none => Except.error (.missingField "Missing Speed Accuracy")
  | some v =>
    let v1 := if v > 15 then 0 else v
    let v2 := if v1 < 0 then 0 else v1
    Except.ok v2

/-- Lines 378-389: horizontal accuracy is required; a value outside
`[0, 15]` is reset to 0. -/
def horzAccOf (o : ODIDData) : Except PacketErr Int :=
  match o.loc_haccuracy with
  | none => Except.error (.missingField "Missing Horizontal Accuracy")
  | some v => Except.ok (if ¬(0 ≤ v ∧ v ≤ 15) then 0 else v)

/-- Lines 391-408: barometric altitude is optional (default `-1000`);
a value above `31767` becomes `-1000`, otherwise it is decoded as
`(v + 1000) / 2` (Python float division). -/
def baroAltOf (o : ODIDData) : ℚ :=
  match o.loc_pressalt with
  | none => -1000
  | some v => if v > 31767 then -1000 else ((v : ℚ) + 1000) / 2

/-- Lines 410-419: barometric altitude accuracy is optional (default
0); a value outside `[0, 15]` becomes 0. -/
def baroAltAccOf (o : ODIDData) : Int :=
  match o.loc_baroaccuracy with
  | none => 0
  | some v => if ¬(0 ≤ v ∧ v ≤ 15) then 0 else v

/-- Lines 421-431: height is optional (default `-1000`); a value
outside `[-1000, 31767]` becomes `-1000`, otherwise `(v + 1000) / 2`. -/
def heightOf (o : ODIDData) : ℚ :=
  match o.loc_height with
  | none => -1000
  | some v =>
    if ¬(-1000 ≤ v ∧ v ≤ 31767) then -1000 else ((v : ℚ) + 1000) / 2

/-- Lines 433-440: height type is optional (default 0); a value not in
`{0, 1}` becomes 0. -/
def heightTypeOf (o : ODIDData) : Int :=
  match o.loc_flag_heighttype with
  | none => 0
  | some v => if v = 0 ∨ v = 1 then v else 0

/-- Embedding of `CSVCreatorThread.create_row` (csv_creator.py lines
240-447).  `now` is the value of `round(time.time())` read inside the
call. -/
def create_row (pkt : Packet) (now : Int) : Except PacketErr Row := do
  let src_addr ← srcAddrOf pkt
  let o ← match pkt.opendroneid with
    | some o => Except.ok o
    | none =>
      Except.error (PacketErr.missingField "Missing Open Drone ID Protocol")
  let unique_id ← uniqueIdOf o
  let ts ← timestampOf pkt o now
  let locs ← locFieldsOf o
  let geo_alt ← geoAltOf o
  let geo_vert_acc ← geoVertAccOf o
  let speed_acc ← speedAccOf o
  let horz_acc ← horzAccOf o
  Except.ok
    { src_addr := src_addr
      unique_id := unique_id
      timestampSecs := ts.1
      timestampTenth := ts.2
      heading := locs.1
      gnd_speed := locs.2.1
      vert_speed := locs.2.2.1
      lat := locs.2.2.2.1
      lon := locs.2.2.2.2
      geo_alt := geo_alt
      speed_acc := speed_acc
      horz_acc := horz_acc
      geo_vert_acc := geo_vert_acc
      baro_alt := baroAltOf o
      baro_alt_acc := baroAltAccOf o
      height := heightOf o
      height_type := heightTypeOf o }

/-- Modelled from the spec: the timestamp reconstruction the spec
describes, `floor(frame_epoch_seconds/3600)*3600 +
(loc_timestamp_deciseconds // 10)`, clamped to be no later than the
host's current wall time.  Used to compare the source's computation
against the specified one. -/
def spec_timestamp (epoch : ℚ) (deciseconds : Int) (now : Int) : ℚ :=
  pyMinQ (((3600 * (epoch / 3600).floor + pyIntDiv deciseconds 10 : Int) : ℚ))
    (now : ℚ)

/-- The accuracy-code coercion the spec describes for out-of-range
codes: keep values in `[0, 15]`, send everything else to 0. -/
def coerceAcc (v : Int) : Int := if 0 ≤ v ∧ v ≤ 15 then v else 0

/-- Replace the three accuracy fields that the source coerces rather
than rejects. -/
def setAccuracies (pkt : Packet) (sv hv bv : Int) : Packet :=
  { pkt with
    opendroneid := pkt.opendroneid.map fun o =>
      { o with
        loc_speedaccuracy := some sv
        loc_haccuracy := some hv
        loc_baroaccuracy := some bv } }

/-- Replace the geodetic vertical accuracy field. -/
def setGeoVertAcc (pkt : Packet) (gv : Int) : Packet :=
  { pkt with
    opendroneid := pkt.opendroneid.map fun o =>
      { o with loc_vaccuracy := some gv } }

/-! The window loop and dispatch logic of `CSVCreatorThread.run`
(csv_creator.py lines 88-189). -/

/-- Number of parameters of `helpers.safe_remove_csv` as declared at
helpers.py line 64: `def safe_remove_csv(file_name: str)`. -/
def safe_remove_csv_param_count : Nat := 1

/-- Number of positional arguments in every call
`helpers.safe_remove_csv(file_name, self.logger)` made by
`csv_creator.py` (lines 160, 177, 180 and 237). -/
def csv_creator_remove_arg_count : Nat := 2

/-- A Python call whose positional argument count differs from the
callee's parameter count (and the callee has no defaults or varargs)
raises `TypeError` before the body runs; `run` does not catch
`TypeError` outside of `create_row`, so the thread dies. -/
def remove_call_raises_type_error : Bool :=
  decide (csv_creator_remove_arg_count ≠ safe_remove_csv_param_count)

/-- Default `max_packet_count` of `CSVCreatorThread.__init__`. -/
def max_packet_count : Nat := 100

/-- Default `max_elapsed_time` of `CSVCreatorThread.__init__`
(seconds). -/
def max_elapsed_time : ℚ := 300

/-- Outcome of one `self._packet_queue.get(timeout=...)` call:
`queue.Empty` (starvation), the `None` sentinel, or a packet.  A packet
carries the wall-clock reading `round(time.time())` used inside
`create_row` and the `time.monotonic() - current_time` value observed
after the row is written. -/
inductive QueueGet where
  | timeout
  | sentinel
  | pkt (p : Packet) (wallNow : Int) (elapsedAfter : ℚ)

/-- One iteration's worth of external input to the window loop: either
the `sigint_event` check at the loop top observes the event set, or a
queue read completes with the given result. -/
inductive LoopEvent where
  | sigintSet
  | get (q : QueueGet)

/-- How the inner `while` of `run` was left. -/
inductive WindowExit where
  | limit
  | sigint
  | starved
  | sentinel
  | outOfTrace
  deriving DecidableEq

/-- The inner window loop of `run` (lines 117-152): keep reading while
`packet_count <= max_packet_count and elapsed_time < max_elapsed_time`;
break on sigint / starvation / sentinel; rows that `create_row` rejects
are skipped (`continue`), and `elapsed_time` is updated only after a
successful write.  Returns the rows written, the exit kind and the
unconsumed trace.  `outOfTrace` is a model artifact for traces too
short to leave the loop. -/
def windowLoop (maxC : Nat) (maxT : ℚ) :
    Nat → ℚ → List LoopEvent → List Row × WindowExit × List LoopEvent
  | count, elapsed, evs =>
    if count ≤ maxC ∧ elapsed < maxT then
      match evs with
      | [] => ([], .outOfTrace, [])
      | .sigintSet :: rest => ([], .sigint, rest)
      | .get .timeout :: rest => ([], .starved, rest)
      | .get .sentinel :: rest => ([], .sentinel, rest)
      | .get (.pkt p now el) :: rest =>
        match create_row p now with
        | .error _ => windowLoop maxC maxT count elapsed rest
        | .ok r =>
          let res := windowLoop maxC maxT (count + 1) el rest
          (r :: res.1, res.2.1, res.2.2)
    else ([], .limit, evs)

/-- External input for one pass of the outer `while go_again` loop: the
`sleep_event` observation at the loop top, the queue trace for the
window, and whether `upload_file_queue.put` stays blocked past its 5 s
timeout (`queue.Full`). -/
structure WindowInput where
  sleepAtTop : Bool
  events : List LoopEvent
  uploadQueueFull : Bool

/-- What `run` decided to do with a closed window's file (lines
156-180).  The three delete fates record that the corresponding
`helpers.safe_remove_csv(file_name, self.logger)` call site was
reached. -/
inductive FileFate where
  | enqueued
  | deleteEmptyAttempt
  | deleteQueueFullAttempt
  | deleteSigintAttempt
  | unresolvedTrace
  deriving DecidableEq

/-- One window's file: the data rows written after the header and the
file's fate. -/
structure FileRecord where
  rows : List Row
  fate : FileFate
  deriving DecidableEq

/-- The two steps of the exit protocol at lines 182-188. -/
inductive FinalAct where
  | setExitEvent
  | pushUploadSentinel
  deriving DecidableEq

/-- How the CSV thread ended. -/
inductive RunEnd where
  | normal
  | sigintReturn
  | crashedTypeError
  | outOfTrace
  deriving DecidableEq

/-- Result of the whole `run` call: the files opened, the exit-protocol
actions performed in order, and how the thread ended. -/
structure RunResult where
  files : List FileRecord
  finalActs : List FinalAct
  ending : RunEnd

/-- The outer `while go_again` loop of `run` (lines 92-180).  Each
window: check `sleep_event`, open a file, run the window loop, then on
sigint delete and return (line 156-162); otherwise enqueue a non-empty
file unless the upload queue is full past the timeout, and delete an
empty or rejected file.  Every delete site calls `safe_remove_csv` with
two arguments, which raises `TypeError` and kills the thread. -/
def runLoop : List WindowInput → List FileRecord × RunEnd
  | [] => ([], .outOfTrace)
  | w :: rest =>
    if w.sleepAtTop then ([], .normal)
    else
      let res := windowLoop max_packet_count max_elapsed_time 0 0 w.events
      let rows := res.1
      match res.2.1 with
      | .outOfTrace => ([⟨rows, .unresolvedTrace⟩], .outOfTrace)
      | .sigint =>
        ([⟨rows, .deleteSigintAttempt⟩],
          if remove_call_raises_type_error then .crashedTypeError
          else .sigintReturn)
      | e =>
        let fate : FileFate :=
          if rows.length > 0 then
            if w.uploadQueueFull then .deleteQueueFullAttempt else .enqueued
          else .deleteEmptyAttempt
        let crashed : Bool :=
          match fate with
          | .enqueued => false
          | _ => remove_call_raises_type_error
        if crashed then ([⟨rows, fate⟩], .crashedTypeError)
        else if e = WindowExit.limit then
          let r2 := runLoop rest
          (⟨rows, fate⟩ :: r2.1, r2.2)
        else ([⟨rows, fate⟩], .normal)

/-- The full `run` model: the window loop followed by the exit
protocol.  Only a normal loop exit reaches lines 182-188, where
`exit_event.set()` happens first and then `put(None, block=False)` is
attempted (skipped when the queue is full). -/
def runModel (ws : List WindowInput) (finalPushFull : Bool) : RunResult :=
  let r := runLoop ws
  match r.2 with
  | .normal =>
    ⟨r.1,
      FinalAct.setExitEvent ::
        (if finalPushFull then [] else [FinalAct.pushUploadSentinel]),
      .normal⟩
  | e => ⟨r.1, [], e⟩

/-! The uploader thread of `aws_communicator.py` (lines 85-134). -/

/-- One value taken from the upload-file queue: the `None` sentinel or
a file path, abstracted to whether `os.path.exists` holds and whether
`upload_file` succeeds for it. -/
inductive UpItem where
  | sentinel
  | file (fileOnDisk : Bool) (uploadOk : Bool)
  deriving DecidableEq

/-- One iteration's queue interaction: a blocking `get()` while the
CSV-writer exit event is unset, or a non-blocking `get(block=False)`
after it is set (`none` is `queue.Empty`). -/
inductive UpEvent where
  | blockGet (item : UpItem)
  | drainGet (item : Option UpItem)
  deriving DecidableEq

/-- Log entry for one dequeued file. -/
structure UpFileLog where
  fileOnDisk : Bool
  uploadOk : Bool
  errBefore : Nat
  errAfter : Nat
  deleted : Bool
  deriving DecidableEq

/-- How the uploader loop ended. -/
inductive UpExit where
  | budgetExhausted
  | sentinelReceived
  | drained
  | outOfTrace
  deriving DecidableEq

/-- The `while upload_error_count < max_error_count` loop of
`uploader`: drain the queue; exit on sentinel or on empty-after-exit;
for an existing file, upload, count a failure, and delete the file
either way (`helpers.safe_remove_csv(file_name)` — one argument here,
so the deletion really runs); a missing file is only logged. -/
def uploaderLoop (maxErr : Nat) :
    Nat → List UpEvent → List UpFileLog × Nat × UpExit
  | err, evs =>
    if err < maxErr then
      match evs with
      | [] => ([], err, .outOfTrace)
      | e :: rest =>
        match
          (match e with
           | .blockGet it => some it
           | .drainGet it? => it?) with
        | none => ([], err, .drained)
        | some .sentinel => ([], err, .sentinelReceived)
        | some (.file onDisk ok) =>
          if onDisk then
            let err2 := if ok then err else err + 1
            let r := uploaderLoop maxErr err2 rest
            (⟨onDisk, ok, err, err2, true⟩ :: r.1, r.2.1, r.2.2)
          else
            let r := uploaderLoop maxErr err rest
            (⟨onDisk, ok, err, err, false⟩ :: r.1, r.2.1, r.2.2)
    else ([], err, .budgetExhausted)

/-- The `uploader_max_error_count = 5` constant of `__main__.py`. -/
def uploader_max_error_count : Nat := 5

/-! The channel sweeper of `channel_swapper.py`. -/

/-- A value drained from the channel-hit queue, as Python sees it. -/
inductive PyVal where
  | pynone
  | pyint (n : Int)
  | pystr (s : String)
  deriving DecidableEq

/-- Python `str(...)` on such a value. -/
def pyStr : PyVal → String
  | .pynone => "None"
  | .pyint n => toString n
  | .pystr s => s

/-- The default channel sweep set by
`ChannelDictionary.use_default_sweep` (lines 42-60): `(channel, dwell
seconds)` pairs. -/
def default_sweep : List (String × ℚ) :=
  [("1", 0.5), ("6", 20.5), ("11", 0.5),
   ("36", 0.25), ("40", 0.25), ("44", 0.25), ("48", 0.25),
   ("1", 0.5), ("6", 20.5), ("11", 0.5),
   ("149", 0.25), ("153", 0.25), ("157", 0.25), ("161", 0.25)]

/-- `ChannelDictionary._create_channel_packet_count` (lines 62-74):
the insertion-ordered dict with keys `str(ch)` for channels 1-13,
36/40/44/48 and 149/153/157/161, all counts 0. -/
def create_channel_packet_count : List (String × Nat) :=
  ((List.range' 1 13).map fun n => (toString n, 0)) ++
    ([36, 40, 44, 48].map fun n : Nat => (toString n, 0)) ++
    ([149, 153, 157, 161].map fun n : Nat => (toString n, 0))

/-- The `ChannelDictionary` state: the stored supported-channel list,
the current sweep schedule, and the per-channel packet counts.
`__init__` stores `supported_channels` and sets the schedule to the
default sweep; it performs no intersection of the two. -/
structure ChannelDictionary where
  supported_channels : List String
  channels : List (String × ℚ)
  ch_pkt_count : List (String × Nat)

/-- `ChannelDictionary.__init__` (lines 32-40). -/
def channelDictInit (supported : List String) : ChannelDictionary :=
  { supported_channels := supported
    channels := default_sweep
    ch_pkt_count := create_channel_packet_count }

/-- Increment a dict entry; `none` is Python's `KeyError` for a key
that is not present. -/
def dictIncr : List (String × Nat) → String → Option (List (String × Nat))
  | [], _ => none
  | (k, v) :: rest, key =>
    if k = key then some ((k, v + 1) :: rest)
    else (dictIncr rest key).map (fun tail => (k, v) :: tail)

/-- `ChannelDictionary.update` (lines 82-92) applied to the items
drained from the channel-hit queue: `self.ch_pkt_count[str(ch)] += 1`
for each item, with no guard — a missing key raises `KeyError`, which
nothing in the sweeper catches.  The error value is the offending
`str(ch)`. -/
def channelDictUpdate (counts : List (String × Nat)) :
    List PyVal → Except String (List (String × Nat))
  | [] => .ok counts
  | ch :: rest =>
    match dictIncr counts (pyStr ch) with
    | none => .error (pyStr ch)
    | some counts2 => channelDictUpdate counts2 rest

/-- Keys of the modelled dict. -/
def dictKeys (d : List (String × Nat)) : List String := d.map Prod.fst

/-- `ChannelDictionary.remove` (lines 101-111): filter the channel out
of both stored lists (the schedule list is rebound to a new list, so an
iteration already under way keeps walking the old snapshot). -/
def removeChannel (d : ChannelDictionary) (ch : String) : ChannelDictionary :=
  { d with
    supported_channels := d.supported_channels.filter (fun x => x ≠ ch)
    channels := d.channels.filter (fun p => p.1 ≠ ch) }

/-- Result of the external `iw ... set channel` command for a
syntactically valid channel argument. -/
inductive ChanOutcome where
  | ok
  | illegal
  | monitorLost
  | otherFail

/-- Result of `set_channel` as the sweeper observes it. -/
inductive SetChanResult where
  | ok
  | valueError
  | illegal
  | monitorLost
  | otherFail

/-- Python `str.isdigit` (ASCII fragment): non-empty and all digits. -/
def pyIsDigitStr (s : String) : Bool :=
  !s.data.isEmpty && s.data.all Char.isDigit

/-- `set_channel` (lines 231-270): reject a non-digit channel string
with `ValueError` before running the command; otherwise the command's
outcome decides between success, `IllegalChannel` (-22),
`InterfaceNoLongerInMonitorMode` (-16) and other failures. -/
def set_channel_model (oracle : String → ChanOutcome) (ch : String) :
    SetChanResult :=
  if ¬pyIsDigitStr ch then .valueError
  else
    match oracle ch with
    | .ok => .ok
    | .illegal => .illegal
    | .monitorLost => .monitorLost
    | .otherFail => .otherFail

/-- A condition that aborts the sweeper: the interface left monitor
mode (escalated to `RuntimeError`), another command failure, or a
`KeyError` escaping `ChannelDictionary.update`. -/
inductive SweepFatal where
  | monitorLost
  | otherFail
  | keyError
  deriving DecidableEq

/-- One pass of the `for channel, scan_time in channel_dict.get_channels()`
loop in `wifi_channel_sweeper` (lines 371-388).  The iteration walks
the snapshot taken at pass start; `IllegalChannel` and `ValueError`
remove the channel from the live state and `continue`; the monitor-mode
loss and other failures abort.  Returns the `set_channel` call trace,
the live state, and the fatal outcome if any. -/
def sweeperPass (oracle : String → ChanOutcome) :
    List (String × ℚ) → ChannelDictionary →
      List String × ChannelDictionary × Option SweepFatal
  | [], d => ([], d, none)
  | (ch, _dwell) :: rest, d =>
    match set_channel_model oracle ch with
    | .ok =>
      let r := sweeperPass oracle rest d
      (ch :: r.1, r.2.1, r.2.2)
    | .illegal =>
      let r := sweeperPass oracle rest (removeChannel d ch)
      (ch :: r.1, r.2.1, r.2.2)
    | .valueError =>
      let r := sweeperPass oracle rest (removeChannel d ch)
      (ch :: r.1, r.2.1, r.2.2)
    | .monitorLost => ([ch], d, some .monitorLost)
    | .otherFail => ([ch], d, some .otherFail)

/-- Log of one full pass: the schedule snapshot the pass iterated, the
channels passed to `set_channel`, and the state after the pass. -/
structure PassLog where
  snapshot : List (String × ℚ)
  calls : List String
  after : ChannelDictionary

/-- The `while not sleep_event.is_set()` loop of
`wifi_channel_sweeper`: one pass over the current schedule, then
`channel_dict.update()` on the items drained from the channel-hit
queue.  `drains` lists the drained items per pass; the sleep event is
observed set once the list is exhausted. -/
def sweeperRun (oracle : String → ChanOutcome) :
    ChannelDictionary → List (List PyVal) →
      List PassLog × Option SweepFatal
  | _, [] => ([], none)
  | d, drain :: rest =>
    let r := sweeperPass oracle d.channels d
    let log : PassLog := ⟨d.channels, r.1, r.2.1⟩
    match r.2.2 with
    | some f => ([log], some f)
    | none =>
      match channelDictUpdate r.2.1.ch_pkt_count drain with
      | .error _ => ([log], some SweepFatal.keyError)
      | .ok counts2 =>
        let rr := sweeperRun oracle { r.2.1 with ch_pkt_count := counts2 } rest
        (log :: rr.1, rr.2)

/-- Channel names of a schedule. -/
def scheduleChannels (sched : List (String × ℚ)) : List String :=
  sched.map Prod.fst

/-- Placeholder pass log used as the default of list lookups. -/
def emptyPassLog : PassLog := ⟨[], [], channelDictInit []⟩

/-- A window-loop input that lets the loop proceed: a packet whose row
is accepted, observed with a monotonic elapsed time still below the
window limit. -/
def isValidPacketEvent (e : LoopEvent) : Bool :=
  match e with
  | .get (.pkt p now el) =>
    (create_row p now).isOk && decide (el < max_elapsed_time)
  | _ => false

/-- A fully populated Open Drone ID layer used as concrete test input;
`loc_timestamp = 3611` deciseconds is the example documented in the
source ("3611 corresponds to 6 minutes 1.1 seconds"). -/
def baseOD : ODIDData :=
  { basicid_id_asc := some "TESTDRONE123"
    loc_timestamp := some 3611
    loc_direction := some "181"
    loc_speed := some "0"
    loc_vspeed := some "0"
    loc_lat := some "0.0"
    loc_lon := some "0.0"
    loc_geoalt := some 100
    loc_vaccuracy := some 3
    loc_speedaccuracy := some 2
    loc_haccuracy := some 1
    loc_pressalt := none
    loc_baroaccuracy := none
    loc_height := none
    loc_flag_heighttype := none }

/-- A concrete Wi-Fi packet captured two hours after the epoch. -/
def basePkt : Packet :=
  { btle_advertising_address := none
    wlan_sa := some "00:11:22:33:44:55"
    frame_time_epoch := some 7200
    opendroneid := some baseOD }

/-- A window whose first queue read returns the `None` sentinel, so the
window closes with zero packets. -/
def sentinelWindow : WindowInput :=
  ⟨false, [LoopEvent.get QueueGet.sentinel], false⟩

/-- A window interrupted by SIGINT before any packet is read. -/
def sigintWindow : WindowInput :=
  ⟨false, [LoopEvent.sigintSet], false⟩

/-- A queue trace of 150 accepted packets, each observed well inside
the 300 s window. -/
def validTrace150 : List LoopEvent :=
  List.replicate 150 (LoopEvent.get (QueueGet.pkt basePkt 1700000000 1))

/-- Five consecutive failed uploads of files that exist on disk. -/
def fiveFailedUploads : List UpEvent :=
  List.replicate 5 (UpEvent.blockGet (UpItem.file true false))

/-- A radio that accepts every channel. -/
def allOkOracle : String → ChanOutcome := fun _ => ChanOutcome.ok

/-- A radio that rejects channel 1 as illegal and accepts the rest. -/
def illegalOneOracle : String → ChanOutcome := fun ch =>
  if ch = "1" then ChanOutcome.illegal else ChanOutcome.ok

/-- The schedule the claim calls the post-filter schedule: the default
sweep intersected with the supported-channel list. -/
def claimedIntersection (supported : List String) : List String :=
  (scheduleChannels default_sweep).filter (fun c => decide (c ∈ supported))

/-- The row `create_row` produces for `basePkt` at wall time
1700000000 (note second 1 of the hour in the timestamp, not second
361 — see the C1 theorem). -/
def demoRow : Row :=
  { src_addr := "MAC-00:11:22:33:44:55"
    unique_id := "TESTDRONE123"
    timestampSecs := 7201
    timestampTenth := 1
    heading := "181"
    gnd_speed := "0"
    vert_speed := "0"
    lat := "0.0"
    lon := "0.0"
    geo_alt := 100
    speed_acc := 2
    horz_acc := 1
    geo_vert_acc := 3
    baro_alt := -1000
    baro_alt_acc := 0
    height := -1000
    height_type := 0 }

/-- A run with a single window: one accepted packet, then the
sentinel. -/
def demoRun : List WindowInput :=
  [⟨false, [LoopEvent.get (QueueGet.pkt basePkt 1700000000 1),
    LoopEvent.get QueueGet.sentinel], false⟩]

/-- The file that run produces and enqueues. -/
def demoFile : FileRecord := ⟨[demoRow], FileFate.enqueued⟩

/-! Theorems.  First some small general lemmas about the embedding,
then one theorem (with counterexample and witness where applicable)
per claim. -/

theorem exceptBind_ok {ε α β : Type} (a : α) (f : α → Except ε β) :
    (Except.ok a >>= f : Except ε β) = f a := rfl

theorem exceptBind_err {ε α β : Type} (e : ε) (f : α → Except ε β) :
    (Except.error e >>= f : Except ε β) = Except.error e := rfl

theorem exceptIsOk_iff {ε α : Type} (x : Except ε α) :
    x.isOk = true ↔ ∃ a, x = Except.ok a := by
  cases x <;> simp [Except.isOk, Except.toBool]

/-- A matched source address starts with an upper-case `M` or `B`;
lower-casing the string therefore makes the match fail. -/
theorem srcAddrMatch_map_lower (l : List Char) (h : srcAddrMatch l = true) :
    srcAddrMatch (l.map lowerChar) = false := by
  match l, h with
  | [], h => simp [srcAddrMatch] at h
  | [a], h => simp [srcAddrMatch] at h
  | [a, b], h => simp [srcAddrMatch] at h
  | [a, b, c], h => simp [srcAddrMatch] at h
  | p1 :: p2 :: p3 :: p4 :: rest, h =>
    have mM : (('m' : Char) == 'M') = false := by decide
    have mB : (('m' : Char) == 'B') = false := by decide
    have bM : (('b' : Char) == 'M') = false := by decide
    have bB : (('b' : Char) == 'B') = false := by decide
    simp only [srcAddrMatch, Bool.and_eq_true, Bool.or_eq_true,
      beq_iff_eq] at h
    have hp1 : p1 = 'M' ∨ p1 = 'B' := by tauto
    rcases hp1 with rfl | rfl <;>
      simp [srcAddrMatch, show lowerChar 'M' = 'm' from by decide,
        show lowerChar 'B' = 'b' from by decide, mM, mB, bM, bB]

/-- C9 counterexample: at `x = "a"` both sides of the claimed
equivalence-test agree (both addresses are invalid) even though `"a"`
is not already upper case, so the claimed "if and only if" fails. -/
theorem C9_counterexample_iff_fails_at_lowercase_a :
    (is_valid_src_addr (some (pyUpper "a")) =
        is_valid_src_addr (some "a")) ∧
      pyUpper "a" ≠ "a" := by
  constructor
  · decide
  · decide

/-- C9 (amended): if `x` is already upper case then upper-casing it
cannot change the verdict of `is_valid_src_addr`, and the lower-cased
variant of any valid source address is rejected; but agreement of the
two verdicts does not imply that `x` was upper case. -/
theorem C9_case_sensitivity (x : String) :
    (pyUpper x = x →
      is_valid_src_addr (some (pyUpper x)) = is_valid_src_addr (some x)) ∧
    (is_valid_src_addr (some x) = true →
      is_valid_src_addr (some (pyLower x)) = false) := by
  constructor
  · intro h
    rw [h]
  · intro h
    have : srcAddrMatch x.data = true := h
    show srcAddrMatch (pyLower x).data = false
    have hdata : (pyLower x).data = x.data.map lowerChar := rfl
    rw [hdata]
    exact srcAddrMatch_map_lower x.data this

/-- C9 witness: the amended theorem applied at the concrete valid
address `MAC-FF:FF:FF:FF:FF:FF`. -/
theorem C9_case_sensitivity_witness :
    is_valid_src_addr (some (pyLower "MAC-FF:FF:FF:FF:FF:FF")) = false :=
  (C9_case_sensitivity "MAC-FF:FF:FF:FF:FF:FF").2 (by decide)

theorem dictIncr_isSome_iff (d : List (String × Nat)) (k : String) :
    (dictIncr d k).isSome = true ↔ k ∈ dictKeys d := by
  induction d with
  | nil => simp [dictIncr, dictKeys]
  | cons p rest ih =>
    obtain ⟨pk, pv⟩ := p
    by_cases h : pk = k
    · subst h
      simp [dictIncr, dictKeys]
    · have hmap : dictIncr ((pk, pv) :: rest) k =
          (dictIncr rest k).map (fun tail => (pk, pv) :: tail) := by
        simp [dictIncr, if_neg h]
      have hsome : ((dictIncr rest k).map
          (fun tail => (pk, pv) :: tail)).isSome =
            (dictIncr rest k).isSome := by
        cases dictIncr rest k <;> rfl
      rw [hmap, hsome, ih]
      simp only [dictKeys, List.map_cons, List.mem_cons]
      constructor
      · exact fun hm => Or.inr hm
      · rintro (rfl | hm)
        · exact absurd rfl h
        · exact hm

theorem dictIncr_keys_eq (d d2 : List (String × Nat)) (k : String)
    (h : dictIncr d k = some d2) : dictKeys d2 = dictKeys d := by
  induction d generalizing d2 with
  | nil => simp [dictIncr] at h
  | cons p rest ih =>
    obtain ⟨pk, pv⟩ := p
    by_cases hk : pk = k
    · simp only [dictIncr, if_pos hk] at h
      cases h
      rfl
    · simp only [dictIncr, if_neg hk, Option.map_eq_some'] at h
      obtain ⟨t, ht, rfl⟩ := h
      have := ih t ht
      simp only [dictKeys, List.map_cons] at this ⊢
      rw [this]

theorem channelDictUpdate_isOk_iff (items : List PyVal) :
    ∀ counts : List (String × Nat),
      ((channelDictUpdate counts items).isOk = true ↔
        ∀ ch ∈ items, pyStr ch ∈ dictKeys counts) := by
  induction items with
  | nil =>
    intro counts
    simp [channelDictUpdate, Except.isOk, Except.toBool]
  | cons ch rest ih =>
    intro counts
    unfold channelDictUpdate
    cases hd : dictIncr counts (pyStr ch) with
    | none =>
      have hmem : ¬pyStr ch ∈ dictKeys counts := by
        rw [← dictIncr_isSome_iff]
        simp [hd]
      simp [Except.isOk, Except.toBool, List.forall_mem_cons, hmem]
    | some counts2 =>
      have hmem : pyStr ch ∈ dictKeys counts := by
        rw [← dictIncr_isSome_iff]
        simp [hd]
      rw [ih counts2, dictIncr_keys_eq counts counts2 (pyStr ch) hd]
      simp [List.forall_mem_cons, hmem]

/-- C10: draining the channel-hit queue through
`ChannelDictionary.update` succeeds exactly when every drained item's
`str(...)` is one of the keys fixed at construction — channels 1-13,
36/40/44/48 and 149/153/157/161 — and otherwise raises an uncaught
`KeyError`; the key set is listed explicitly. -/
theorem C10_update_raises_keyerror (supported : List String)
    (items : List PyVal) :
    ((channelDictUpdate (channelDictInit supported).ch_pkt_count
        items).isOk = true ↔
      ∀ ch ∈ items, pyStr ch ∈ dictKeys create_channel_packet_count) ∧
    dictKeys create_channel_packet_count =
      ["1", "2", "3", "4", "5", "6", "7", "8", "9", "10", "11", "12",
       "13", "36", "40", "44", "48", "149", "153", "157", "161"] := by
  constructor
  · exact channelDictUpdate_isOk_iff items create_channel_packet_count
  · decide

/-- C10 witness: the theorem applied to a queue holding the `None`
sentinel shows the drain step crashes instead of skipping it. -/
theorem C10_update_raises_keyerror_witness :
    ¬(channelDictUpdate (channelDictInit []).ch_pkt_count
        [PyVal.pynone]).isOk = true := by
  intro hok
  have h := (C10_update_raises_keyerror [] [PyVal.pynone]).1.mp hok
  have hmem := h PyVal.pynone (by simp)
  revert hmem
  decide

theorem uploaderLoop_spec (maxErr : Nat) (evs : List UpEvent) :
    ∀ err0, err0 ≤ maxErr →
      (∀ log ∈ (uploaderLoop maxErr err0 evs).1,
        (log.fileOnDisk = true →
          log.deleted = true ∧
            log.errAfter = log.errBefore +
              (if log.uploadOk then 0 else 1)) ∧
        (log.fileOnDisk = false →
          log.deleted = false ∧ log.errAfter = log.errBefore)) ∧
      (uploaderLoop maxErr err0 evs).2.1 ≤ maxErr ∧
      ((uploaderLoop maxErr err0 evs).2.1 = maxErr →
        (uploaderLoop maxErr err0 evs).2.2 = UpExit.budgetExhausted) := by
  induction evs with
  | nil =>
    intro err0 h0
    by_cases h : err0 < maxErr
    · simp only [uploaderLoop, if_pos h]
      refine ⟨by simp, h0, fun he => absurd he (Nat.ne_of_lt h)⟩
    · simp only [uploaderLoop, if_neg h]
      exact ⟨by simp, h0, by simp⟩
  | cons e rest ih =>
    intro err0 h0
    by_cases h : err0 < maxErr
    · cases e with
      | drainGet item? =>
        cases item? with
        | none =>
          simp only [uploaderLoop, if_pos h]
          exact ⟨by simp, h0, fun he => absurd he (Nat.ne_of_lt h)⟩
        | some item =>
          cases item with
          | sentinel =>
            simp only [uploaderLoop, if_pos h]
            exact ⟨by simp, h0, fun he => absurd he (Nat.ne_of_lt h)⟩
          | file onDisk ok =>
            by_cases hd : onDisk
            · subst hd
              have h2 : (if ok then err0 else err0 + 1) ≤ maxErr := by
                cases ok <;> simp <;> omega
              obtain ⟨ihl, ihe, ihb⟩ := ih (if ok then err0 else err0 + 1) h2
              simp only [uploaderLoop, if_pos h, if_pos rfl]
              refine ⟨?_, ?_, ?_⟩
              · intro log hlog
                rcases List.mem_cons.mp hlog with rfl | hlog
                · refine ⟨fun _ => ⟨rfl, ?_⟩, by simp⟩
                  cases ok <;> simp
                · exact ihl log hlog
              · exact ihe
              · exact ihb
            · have hd2 : onDisk = false := by simpa using hd
              subst hd2
              obtain ⟨ihl, ihe, ihb⟩ := ih err0 h0
              simp only [uploaderLoop, if_pos h]
              refine ⟨?_, ihe, ihb⟩
              intro log hlog
              rcases List.mem_cons.mp hlog with rfl | hlog
              · exact ⟨by simp, fun _ => ⟨rfl, rfl⟩⟩
              · exact ihl log hlog
      | blockGet item =>
        cases item with
        | sentinel =>
          simp only [uploaderLoop, if_pos h]
          exact ⟨by simp, h0, fun he => absurd he (Nat.ne_of_lt h)⟩
        | file onDisk ok =>
          by_cases hd : onDisk
          · subst hd
            have h2 : (if ok then err0 else err0 + 1) ≤ maxErr := by
              cases ok <;> simp <;> omega
            obtain ⟨ihl, ihe, ihb⟩ := ih (if ok then err0 else err0 + 1) h2
            simp only [uploaderLoop, if_pos h]
            refine ⟨?_, ihe, ihb⟩
            intro log hlog
            rcases List.mem_cons.mp hlog with rfl | hlog
            · refine ⟨fun _ => ⟨rfl, ?_⟩, by simp⟩
              cases ok <;> simp
            · exact ihl log hlog
          · have hd2 : onDisk = false := by simpa using hd
            subst hd2
            obtain ⟨ihl, ihe, ihb⟩ := ih err0 h0
            simp only [uploaderLoop, if_pos h]
            refine ⟨?_, ihe, ihb⟩
            intro log hlog
            rcases List.mem_cons.mp hlog with rfl | hlog
            · exact ⟨by simp, fun _ => ⟨rfl, rfl⟩⟩
            · exact ihl log hlog
    · simp only [uploaderLoop, if_neg h]
      exact ⟨by simp, h0, by simp⟩

/-- C5: for every file the uploader dequeues, an upload failure
increments the error counter and the file is deleted locally exactly
as on success; a file missing from disk is skipped without touching
the counter; the cumulative counter never exceeds `max_error_count`,
and reaching it makes the loop exit through the fatal
budget-exhausted path; the configured default is 5. -/
theorem C5_uploader_policy (maxErr : Nat) (evs : List UpEvent) :
    (∀ log ∈ (uploaderLoop maxErr 0 evs).1,
      (log.fileOnDisk = true →
        log.deleted = true ∧
          log.errAfter = log.errBefore +
            (if log.uploadOk then 0 else 1)) ∧
      (log.fileOnDisk = false →
        log.deleted = false ∧ log.errAfter = log.errBefore)) ∧
    (uploaderLoop maxErr 0 evs).2.1 ≤ maxErr ∧
    ((uploaderLoop maxErr 0 evs).2.1 = maxErr →
      (uploaderLoop maxErr 0 evs).2.2 = UpExit.budgetExhausted) ∧
    uploader_max_error_count = 5 := by
  obtain ⟨hl, he, hb⟩ := uploaderLoop_spec maxErr evs 0 (Nat.zero_le _)
  exact ⟨hl, he, hb, rfl⟩

/-- C5 witness: the theorem applied to five failing uploads of
existing files at the default error budget. -/
theorem C5_uploader_policy_witness :
    (⟨true, false, 0, 1, true⟩ : UpFileLog) ∈
        (uploaderLoop 5 0 fiveFailedUploads).1 ∧
      ((⟨true, false, 0, 1, true⟩ : UpFileLog).deleted = true ∧
        (⟨true, false, 0, 1, true⟩ : UpFileLog).errAfter =
          (⟨true, false, 0, 1, true⟩ : UpFileLog).errBefore + 1) ∧
      (uploaderLoop 5 0 fiveFailedUploads).2.2 =
        UpExit.budgetExhausted := by
  refine ⟨by decide, ?_, ?_⟩
  · have h :=
      ((C5_uploader_policy 5 fiveFailedUploads).1
        ⟨true, false, 0, 1, true⟩ (by decide)).1 rfl
    exact ⟨h.1, h.2⟩
  · exact (C5_uploader_policy 5 fiveFailedUploads).2.2.1 (by decide)

/-- C8 (amended): whenever the outer loop terminates through a path
that reaches the exit protocol (sentinel, queue starvation or the
sleep event, with no delete-helper call on the way), the CSV-writer
exit event is set first and the upload-queue sentinel push comes after
it (and is skipped when the queue is full); on every other ending —
the SIGINT mid-window return and the delete-site `TypeError` crash —
neither action happens. -/
theorem C8_exit_protocol_order (ws : List WindowInput) (full : Bool) :
    ((runModel ws full).ending = RunEnd.normal →
      (runModel ws full).finalActs =
        FinalAct.setExitEvent ::
          (if full then [] else [FinalAct.pushUploadSentinel])) ∧
    ((runModel ws full).ending ≠ RunEnd.normal →
      (runModel ws full).finalActs = []) := by
  unfold runModel
  cases hr : (runLoop ws).2 <;> simp [hr]

/-- C8 witness: the amended theorem applied to a run whose single
window ends on the queue sentinel with one accepted packet. -/
theorem C8_exit_protocol_order_witness :
    (runModel [⟨false,
        [LoopEvent.get (QueueGet.pkt basePkt 1700000000 1),
         LoopEvent.get QueueGet.sentinel], false⟩] false).finalActs =
      [FinalAct.setExitEvent, FinalAct.pushUploadSentinel] :=
  (C8_exit_protocol_order
    [⟨false,
      [LoopEvent.get (QueueGet.pkt basePkt 1700000000 1),
       LoopEvent.get QueueGet.sentinel], false⟩] false).1
    (by with_unfolding_all rfl)

/-- C8 counterexample: on the SIGINT-mid-window termination path the
thread returns at line 162 without ever reaching lines 182-188, so the
exit event is not set and no sentinel is pushed — against the claim
that every termination path sets the event before the push. -/
theorem C8_counterexample_sigint_skips_exit_protocol :
    (runModel [sigintWindow] false).ending ≠ RunEnd.normal ∧
    FinalAct.setExitEvent ∉ (runModel [sigintWindow] false).finalActs ∧
    FinalAct.pushUploadSentinel ∉
      (runModel [sigintWindow] false).finalActs := by
  have h : runModel [sigintWindow] false =
      ⟨[⟨[], FileFate.deleteSigintAttempt⟩], [],
        RunEnd.crashedTypeError⟩ := by
    with_unfolding_all rfl
  refine ⟨?_, ?_, ?_⟩ <;> rw [h] <;> simp

/-- C3: the claim's delete paths are unreachable as written — every
`helpers.safe_remove_csv(file_name, self.logger)` call in
`csv_creator.py` passes two positional arguments to a one-parameter
function, so closing a window with zero packets raises `TypeError`,
kills the thread, leaves the file on disk and skips the exit
protocol; the file is still never enqueued. -/
theorem C3_empty_window_delete_crashes :
    remove_call_raises_type_error = true ∧
    runModel [sentinelWindow] false =
      ⟨[⟨[], FileFate.deleteEmptyAttempt⟩], [],
        RunEnd.crashedTypeError⟩ := by
  constructor
  · decide
  · with_unfolding_all rfl

/-- C1: evaluating `create_row` at the source's own documented example
(`loc_timestamp = 3611` deciseconds, frame epoch 7200, wall clock far
in the future) puts second 1 of the hour in the timestamp, because
`int(time_since_utc_hour) % 3600` wraps the decisecond counter at six
minutes; the specified reconstruction
`floor(epoch/3600)*3600 + deciseconds // 10` gives second 361
(6 min 1 s past the hour), as the source's comment
"3611 corresponds to 6 minutes 1.1 seconds" intends. -/
theorem C1_timestamp_wraps_deciseconds_at_3600 :
    (create_row basePkt 1700000000).map
        (fun r => (r.timestampSecs, r.timestampTenth)) =
      Except.ok (7201, 1) ∧
    spec_timestamp 7200 3611 1700000000 = 7561 ∧
    (7201 : ℚ) ≠ 7561 := by
  refine ⟨by with_unfolding_all rfl, by with_unfolding_all rfl, by decide⟩

theorem windowLoop_packet_rule (evs : List LoopEvent) :
    ∀ (count : Nat) (elapsed : ℚ),
      count ≤ max_packet_count → elapsed < max_elapsed_time →
      (∀ e ∈ evs, isValidPacketEvent e = true) →
      max_packet_count + 1 - count ≤ evs.length →
      (windowLoop max_packet_count max_elapsed_time count elapsed
          evs).1.length = max_packet_count + 1 - count ∧
      (windowLoop max_packet_count max_elapsed_time count elapsed
          evs).2.1 = WindowExit.limit := by
  have hmp : max_packet_count = 100 := rfl
  induction evs with
  | nil =>
    intro count elapsed hc _ _ hlen
    exfalso
    rw [hmp] at hc
    rw [hmp] at hlen
    simp at hlen
    omega
  | cons e rest ih =>
    intro count elapsed hc he hval hlen
    have hv := hval e (List.mem_cons_self e rest)
    match e, hv with
    | .get (.pkt p now el), hv =>
      simp only [isValidPacketEvent, Bool.and_eq_true,
        decide_eq_true_eq] at hv
      obtain ⟨hok, hel⟩ := hv
      obtain ⟨r, hr⟩ := (exceptIsOk_iff _).mp hok
      rw [windowLoop.eq_def]
      dsimp only
      rw [if_pos (show count ≤ max_packet_count ∧
        elapsed < max_elapsed_time from ⟨hc, he⟩)]
      simp only [hr]
      by_cases hcnt : count = max_packet_count
      · subst hcnt
        have hstop : ¬(max_packet_count + 1 ≤ max_packet_count ∧
            el < max_elapsed_time) :=
          fun hand => absurd hand.1 (Nat.not_succ_le_self _)
        rw [windowLoop.eq_def]
        dsimp only
        rw [if_neg hstop]
        constructor
        · simp
        · simp
      · have hlt : count < max_packet_count := lt_of_le_of_ne hc hcnt
        have hlen2 : max_packet_count + 1 - (count + 1) ≤ rest.length := by
          simp only [List.length_cons] at hlen
          omega
        have hrest := ih (count + 1) el hlt hel
          (fun x hx => hval x (List.mem_cons_of_mem _ hx)) hlen2
        constructor
        · simp only [List.length_cons, hrest.1]
          omega
        · simpa using hrest.2

/-- C6: a window fed only accepted packets, each arriving inside the
300 s limit, with at least 101 of them available, closes through the
packet-count rule with exactly `max_packet_count + 1 = 101` data rows
after the header. -/
theorem C6_window_closes_with_101_rows (evs : List LoopEvent)
    (hval : ∀ e ∈ evs, isValidPacketEvent e = true)
    (hlen : max_packet_count + 1 ≤ evs.length) :
    (windowLoop max_packet_count max_elapsed_time 0 0 evs).1.length =
        max_packet_count + 1 ∧
      (windowLoop max_packet_count max_elapsed_time 0 0 evs).2.1 =
        WindowExit.limit := by
  have h := windowLoop_packet_rule evs 0 0 (Nat.zero_le _) (by decide)
    hval (by simpa using hlen)
  simpa using h

/-- C6 witness: the theorem applied to a trace of 150 valid packets;
the first file gets 101 rows. -/
theorem C6_window_closes_with_101_rows_witness :
    (∀ e ∈ validTrace150, isValidPacketEvent e = true) ∧
      (windowLoop max_packet_count max_elapsed_time 0 0
          validTrace150).1.length = 101 := by
  have hval : ∀ e ∈ validTrace150, isValidPacketEvent e = true := by
    intro e he
    have heq := List.eq_of_mem_replicate he
    rw [heq]
    decide
  refine ⟨hval, ?_⟩
  have hlen : max_packet_count + 1 ≤ validTrace150.length := by
    simp [validTrace150, max_packet_count]
  have h := C6_window_closes_with_101_rows validTrace150 hval hlen
  exact h.1

/-- A source address that `srcAddrOf` returns has passed the
`is_valid_src_addr` guard. -/
theorem srcAddrOf_ok_valid (p : Packet) (s : String)
    (h : srcAddrOf p = Except.ok s) :
    is_valid_src_addr (some s) = true := by
  unfold srcAddrOf at h
  cases hb : p.btle_advertising_address with
  | some a =>
    rw [hb] at h
    dsimp only at h
    by_cases hv : is_valid_src_addr (some (pyUpper ("BDA-" ++ a))) = true
    · rw [if_pos hv] at h
      cases h
      exact hv
    · rw [if_neg (by simpa using hv)] at h
      exact absurd h (by simp)
  | none =>
    rw [hb] at h
    dsimp only at h
    cases hw : p.wlan_sa with
    | some a =>
      rw [hw] at h
      dsimp only at h
      by_cases hv : is_valid_src_addr (some (pyUpper ("MAC-" ++ a))) = true
      · rw [if_pos hv] at h
        cases h
        exact hv
      · rw [if_neg (by simpa using hv)] at h
        exact absurd h (by simp)
    | none =>
      rw [hw] at h
      exact absurd h (by simp)

/-- Every character that survives the sanitization is in the allowed
class. -/
theorem sanitize_all_allowed (s : String) :
    (sanitizeUniqueId s).data.all allowedIdChar = true := by
  rw [List.all_eq_true]
  intro c hc
  have h1 : c ∈ stripSpaces (removeDisallowed s.data) := hc
  have h2 : c ∈ removeDisallowed s.data := by
    unfold stripSpaces at h1
    rw [List.mem_reverse] at h1
    have h3 := (List.dropWhile_sublist (l := (removeDisallowed
      s.data).dropWhile (fun c => c == ' ') |>.reverse)
      (p := fun c => c == ' ')).mem h1
    rw [List.mem_reverse] at h3
    exact (List.dropWhile_sublist (p := fun c => c == ' ')).mem h3
  exact (List.mem_filter.mp h2).2

/-- A unique id that `uniqueIdOf` returns is the sanitized id, has at
most 20 characters and only allowed characters. -/
theorem uniqueIdOf_ok_props (o : ODIDData) (u : String)
    (h : uniqueIdOf o = Except.ok u) :
    u.length ≤ 20 ∧ u.data.all allowedIdChar = true := by
  unfold uniqueIdOf at h
  cases hb : o.basicid_id_asc with
  | none =>
    rw [hb] at h
    exact absurd h (by simp)
  | some raw =>
    rw [hb] at h
    dsimp only at h
    by_cases hlen : (sanitizeUniqueId raw).length > 20
    · rw [if_pos hlen] at h
      exact absurd h (by simp)
    · rw [if_neg hlen] at h
      cases h
      exact ⟨Nat.le_of_not_lt hlen, sanitize_all_allowed raw⟩

/-- Inversion of a successful `create_row`: every stage succeeded and
the row's fields are the stage outputs. -/
theorem create_row_ok_full (p : Packet) (now : Int) (r : Row)
    (h : create_row p now = Except.ok r) :
    ∃ o, p.opendroneid = some o ∧
      srcAddrOf p = Except.ok r.src_addr ∧
      uniqueIdOf o = Except.ok r.unique_id ∧
      timestampOf p o now =
        Except.ok (r.timestampSecs, r.timestampTenth) ∧
      locFieldsOf o =
        Except.ok (r.heading, r.gnd_speed, r.vert_speed, r.lat, r.lon) ∧
      geoAltOf o = Except.ok r.geo_alt ∧
      geoVertAccOf o = Except.ok r.geo_vert_acc ∧
      speedAccOf o = Except.ok r.speed_acc ∧
      horzAccOf o = Except.ok r.horz_acc ∧
      r.baro_alt = baroAltOf o ∧
      r.baro_alt_acc = baroAltAccOf o ∧
      r.height = heightOf o ∧
      r.height_type = heightTypeOf o := by
  unfold create_row at h
  cases hs : srcAddrOf p with
  | error e =>
    rw [hs, exceptBind_err] at h
    exact absurd h (by simp)
  | ok src =>
    rw [hs, exceptBind_ok] at h
    cases ho : p.opendroneid with
    | none =>
      simp only [ho, exceptBind_err] at h
      exact absurd h (by simp)
    | some o =>
      simp only [ho, exceptBind_ok] at h
      cases hu : uniqueIdOf o with
      | error e =>
        rw [hu, exceptBind_err] at h
        exact absurd h (by simp)
      | ok uid =>
        rw [hu, exceptBind_ok] at h
        cases ht : timestampOf p o now with
        | error e =>
          rw [ht, exceptBind_err] at h
          exact absurd h (by simp)
        | ok ts =>
          rw [ht, exceptBind_ok] at h
          cases hl : locFieldsOf o with
          | error e =>
            rw [hl, exceptBind_err] at h
            exact absurd h (by simp)
          | ok locs =>
            rw [hl, exceptBind_ok] at h
            cases hg : geoAltOf o with
            | error e =>
              rw [hg, exceptBind_err] at h
              exact absurd h (by simp)
            | ok ga =>
              rw [hg, exceptBind_ok] at h
              cases hgv : geoVertAccOf o with
              | error e =>
                rw [hgv, exceptBind_err] at h
                exact absurd h (by simp)
              | ok gva =>
                rw [hgv, exceptBind_ok] at h
                cases hsa : speedAccOf o with
                | error e =>
                  rw [hsa, exceptBind_err] at h
                  exact absurd h (by simp)
                | ok sa =>
                  rw [hsa, exceptBind_ok] at h
                  cases hha : horzAccOf o with
                  | error e =>
                    rw [hha, exceptBind_err] at h
                    exact absurd h (by simp)
                  | ok ha =>
                    rw [hha, exceptBind_ok] at h
                    cases Except.ok.inj h
                    refine ⟨o, ?_, ?_, ?_, ?_, ?_, ?_, ?_, ?_, ?_, ?_,
                      ?_, ?_, ?_⟩ <;>
                      first
                        | rfl
                        | exact ho
                        | exact hs
                        | exact hu
                        | exact ht
                        | exact hl
                        | exact hg
                        | exact hgv
                        | exact hsa
                        | exact hha

/-- Every row that the window loop writes is a successful
`create_row` output. -/
theorem rows_of_windowLoop (maxC : Nat) (maxT : ℚ) (evs : List LoopEvent) :
    ∀ (count : Nat) (elapsed : ℚ) (r : Row),
      r ∈ (windowLoop maxC maxT count elapsed evs).1 →
      ∃ p now, create_row p now = Except.ok r := by
  induction evs with
  | nil =>
    intro count elapsed r hr
    rw [windowLoop.eq_def] at hr
    dsimp only at hr
    split at hr <;> simp at hr
  | cons e rest ih =>
    intro count elapsed r hr
    rw [windowLoop.eq_def] at hr
    dsimp only at hr
    by_cases hcond : count ≤ maxC ∧ elapsed < maxT
    · rw [if_pos hcond] at hr
      cases e with
      | sigintSet => simp at hr
      | get q =>
        cases q with
        | timeout => simp at hr
        | sentinel => simp at hr
        | pkt p now el =>
          cases hc : create_row p now with
          | error err =>
            simp only [hc] at hr
            exact ih count elapsed r hr
          | ok row =>
            simp only [hc] at hr
            rcases List.mem_cons.mp hr with rfl | hr2
            · exact ⟨p, now, hc⟩
            · exact ih (count + 1) el r hr2
    · rw [if_neg hcond] at hr
      simp at hr

/-- Every row of every file the batcher loop opens comes from a
successful `create_row`. -/
theorem runLoop_rows (ws : List WindowInput) :
    ∀ f ∈ (runLoop ws).1, ∀ r ∈ f.rows,
      ∃ p now, create_row p now = Except.ok r := by
  induction ws with
  | nil =>
    intro f hf
    simp [runLoop] at hf
  | cons w rest ih =>
    intro f hf r hr
    unfold runLoop at hf
    by_cases hsleep : w.sleepAtTop
    · rw [if_pos hsleep] at hf
      simp at hf
    · rw [if_neg hsleep] at hf
      dsimp only at hf
      have key : f.rows =
          (windowLoop max_packet_count max_elapsed_time 0 0 w.events).1 ∨
            f ∈ (runLoop rest).1 := by
        cases hexit :
            (windowLoop max_packet_count max_elapsed_time 0 0
              w.events).2.1 <;>
          simp only [hexit] at hf <;> repeat' split at hf
        all_goals rcases List.mem_cons.mp hf with rfl | hf2
        all_goals try exact Or.inl rfl
        all_goals try exact Or.inr hf2
        all_goals simp at hf2
      rcases key with hrows | hf2
      · rw [hrows] at hr
        exact rows_of_windowLoop _ _ _ _ _ r hr
      · exact ih f hf2 r hr

/-- C4: every data row of every file the batcher produces has a source
address matching the `(MAC|BDA)-` hex-octet pattern and a unique id of
at most 20 characters drawn from `[0-9A-Za-z_\- ]`. -/
theorem C4_row_invariant (ws : List WindowInput) (full : Bool)
    (f : FileRecord) (hf : f ∈ (runModel ws full).files)
    (r : Row) (hr : r ∈ f.rows) :
    is_valid_src_addr (some r.src_addr) = true ∧
      r.unique_id.length ≤ 20 ∧
      r.unique_id.data.all allowedIdChar = true := by
  have hf2 : f ∈ (runLoop ws).1 := by
    unfold runModel at hf
    cases hrun : (runLoop ws).2 <;> simp [hrun] at hf <;> exact hf
  obtain ⟨p, now, hok⟩ := runLoop_rows ws f hf2 r hr
  obtain ⟨o, _, hsrc, huid, -⟩ := create_row_ok_full p now r hok
  obtain ⟨hu1, hu2⟩ := uniqueIdOf_ok_props o r.unique_id huid
  exact ⟨srcAddrOf_ok_valid p r.src_addr hsrc, hu1, hu2⟩

/-- C4 witness: the invariant theorem applied to the concrete one-row
file of `demoRun`. -/
theorem C4_row_invariant_witness :
    demoFile ∈ (runModel demoRun false).files ∧
      demoRow ∈ demoFile.rows ∧
      (is_valid_src_addr (some demoRow.src_addr) = true ∧
        demoRow.unique_id.length ≤ 20 ∧
        demoRow.unique_id.data.all allowedIdChar = true) := by
  have hfiles : (runModel demoRun false).files = [demoFile] := by
    with_unfolding_all rfl
  have hf : demoFile ∈ (runModel demoRun false).files := by
    rw [hfiles]
    exact List.mem_singleton.mpr rfl
  have hr : demoRow ∈ demoFile.rows := List.mem_singleton.mpr rfl
  exact ⟨hf, hr, C4_row_invariant demoRun false demoFile hf demoRow hr⟩

/-- The two-step reset of the speed accuracy (`> 15` to 0, then `< 0`
to 0) is the `[0, 15]`-coercion. -/
theorem speedAccOf_coerce (o : ODIDData) (v : Int)
    (hv : o.loc_speedaccuracy = some v) :
    speedAccOf o = Except.ok (coerceAcc v) := by
  unfold speedAccOf
  rw [hv]
  dsimp only
  congr 1
  unfold coerceAcc
  split_ifs <;> omega

/-- The horizontal-accuracy reset is the `[0, 15]`-coercion. -/
theorem horzAccOf_coerce (o : ODIDData) (v : Int)
    (hv : o.loc_haccuracy = some v) :
    horzAccOf o = Except.ok (coerceAcc v) := by
  unfold horzAccOf
  rw [hv]
  dsimp only
  congr 1
  unfold coerceAcc
  split_ifs <;> rfl

/-- The barometric-accuracy default and reset are the
`[0, 15]`-coercion of the field's value-or-0. -/
theorem baroAltAccOf_coerce (o : ODIDData) :
    baroAltAccOf o = coerceAcc (o.loc_baroaccuracy.getD 0) := by
  unfold baroAltAccOf coerceAcc
  cases o.loc_baroaccuracy <;> dsimp only [Option.getD] <;>
    split_ifs <;> rfl

theorem speedAccOf_ok_inv (o : ODIDData) (sa : Int)
    (h : speedAccOf o = Except.ok sa) :
    ∃ v, o.loc_speedaccuracy = some v ∧ sa = coerceAcc v := by
  cases hv : o.loc_speedaccuracy with
  | none =>
    unfold speedAccOf at h
    rw [hv] at h
    exact absurd h (by simp)
  | some v =>
    rw [speedAccOf_coerce o v hv] at h
    exact ⟨v, rfl, (Except.ok.inj h).symm⟩

theorem horzAccOf_ok_inv (o : ODIDData) (ha : Int)
    (h : horzAccOf o = Except.ok ha) :
    ∃ v, o.loc_haccuracy = some v ∧ ha = coerceAcc v := by
  cases hv : o.loc_haccuracy with
  | none =>
    unfold horzAccOf at h
    rw [hv] at h
    exact absurd h (by simp)
  | some v =>
    rw [horzAccOf_coerce o v hv] at h
    exact ⟨v, rfl, (Except.ok.inj h).symm⟩

theorem geoVertAccOf_ok_inv (o : ODIDData) (gva : Int)
    (h : geoVertAccOf o = Except.ok gva) :
    ∃ v, o.loc_vaccuracy = some v ∧ 0 ≤ v ∧ v ≤ 15 ∧ gva = v := by
  cases hv : o.loc_vaccuracy with
  | none =>
    unfold geoVertAccOf at h
    rw [hv] at h
    exact absurd h (by simp)
  | some v =>
    unfold geoVertAccOf at h
    rw [hv] at h
    dsimp only at h
    by_cases hr : ¬(0 ≤ v ∧ v ≤ 15)
    · rw [if_pos hr] at h
      exact absurd h (by simp)
    · rw [if_neg hr] at h
      have hr2 := of_not_not hr
      exact ⟨v, rfl, hr2.1, hr2.2, (Except.ok.inj h).symm⟩

/-- Forward composition: when every stage succeeds, `create_row`
returns the assembled row. -/
theorem create_row_build (p : Packet) (now : Int) (o : ODIDData)
    (src uid : String) (ts : ℚ × Int)
    (locs : String × String × String × String × String)
    (ga gva sa ha : Int)
    (ho : p.opendroneid = some o)
    (hs : srcAddrOf p = Except.ok src)
    (hu : uniqueIdOf o = Except.ok uid)
    (ht : timestampOf p o now = Except.ok ts)
    (hl : locFieldsOf o = Except.ok locs)
    (hg : geoAltOf o = Except.ok ga)
    (hgv : geoVertAccOf o = Except.ok gva)
    (hsa : speedAccOf o = Except.ok sa)
    (hha : horzAccOf o = Except.ok ha) :
    create_row p now = Except.ok
      { src_addr := src, unique_id := uid, timestampSecs := ts.1,
        timestampTenth := ts.2, heading := locs.1,
        gnd_speed := locs.2.1, vert_speed := locs.2.2.1,
        lat := locs.2.2.2.1, lon := locs.2.2.2.2, geo_alt := ga,
        speed_acc := sa, horz_acc := ha, geo_vert_acc := gva,
        baro_alt := baroAltOf o, baro_alt_acc := baroAltAccOf o,
        height := heightOf o, height_type := heightTypeOf o } := by
  unfold create_row
  rw [hs, exceptBind_ok]
  simp only [ho]
  rw [exceptBind_ok, hu, exceptBind_ok, ht, exceptBind_ok, hl,
    exceptBind_ok, hg, exceptBind_ok, hgv, exceptBind_ok, hsa,
    exceptBind_ok, hha, exceptBind_ok]

/-- Forward composition of the geodetic-vertical-accuracy rejection:
when the earlier stages succeed and that stage raises, `create_row`
raises the same error. -/
theorem create_row_geo_vert_error (p : Packet) (now : Int)
    (o : ODIDData) (src uid : String) (ts : ℚ × Int)
    (locs : String × String × String × String × String) (ga : Int)
    (er : PacketErr)
    (ho : p.opendroneid = some o)
    (hs : srcAddrOf p = Except.ok src)
    (hu : uniqueIdOf o = Except.ok uid)
    (ht : timestampOf p o now = Except.ok ts)
    (hl : locFieldsOf o = Except.ok locs)
    (hg : geoAltOf o = Except.ok ga)
    (hgv : geoVertAccOf o = Except.error er) :
    create_row p now = Except.error er := by
  unfold create_row
  rw [hs, exceptBind_ok]
  simp only [ho]
  rw [exceptBind_ok, hu, exceptBind_ok, ht, exceptBind_ok, hl,
    exceptBind_ok, hg, exceptBind_ok, hgv, exceptBind_err]

/-- C2 counterexample: a packet whose geodetic vertical accuracy is 16
(just outside `[0, 15]`) is rejected with `InvalidPacketFieldError` —
not coerced to 0 and accepted, as the claim states for all four
accuracy codes. -/
theorem C2_counterexample_geo_vert_acc_rejected :
    create_row (setGeoVertAcc basePkt 16) 1700000000 =
      Except.error (PacketErr.invalidField "Geodetic Vertical Accuracy") := by
  with_unfolding_all rfl

/-- C2 (amended): for `speed_acc`, `horz_acc` and `baro_alt_acc` every
integer value outside `[0, 15]` is coerced to 0 and the record is
still accepted (replacing those three fields by any values keeps the
record accepted and writes the coerced values); `speed_acc > 4` only
logs a warning; but `geo_vert_acc` outside `[0, 15]` raises
`InvalidPacketFieldError` and the record is rejected. -/
theorem C2_accuracy_coercion (p : Packet) (now : Int) (r : Row)
    (h : create_row p now = Except.ok r) :
    (∃ o, p.opendroneid = some o ∧
      (∃ sv, o.loc_speedaccuracy = some sv ∧
        r.speed_acc = coerceAcc sv) ∧
      (∃ hv, o.loc_haccuracy = some hv ∧ r.horz_acc = coerceAcc hv) ∧
      r.baro_alt_acc = coerceAcc (o.loc_baroaccuracy.getD 0) ∧
      (∃ gv, o.loc_vaccuracy = some gv ∧ 0 ≤ gv ∧ gv ≤ 15 ∧
        r.geo_vert_acc = gv)) ∧
    (∀ sv hv bv : Int, ∃ r2,
      create_row (setAccuracies p sv hv bv) now = Except.ok r2 ∧
        r2.speed_acc = coerceAcc sv ∧ r2.horz_acc = coerceAcc hv ∧
        r2.baro_alt_acc = coerceAcc bv) ∧
    (∀ gv : Int, ¬(0 ≤ gv ∧ gv ≤ 15) →
      create_row (setGeoVertAcc p gv) now =
        Except.error
          (PacketErr.invalidField "Geodetic Vertical Accuracy")) := by
  obtain ⟨o, ho, hs, hu, ht, hl, hg, hgv, hsa, hha, hba, hbacc, hh,
    hht⟩ := create_row_ok_full p now r h
  refine ⟨⟨o, ho, ?_, ?_, ?_, ?_⟩, ?_, ?_⟩
  · obtain ⟨v, hv, hev⟩ := speedAccOf_ok_inv o r.speed_acc hsa
    exact ⟨v, hv, hev⟩
  · obtain ⟨v, hv, hev⟩ := horzAccOf_ok_inv o r.horz_acc hha
    exact ⟨v, hv, hev⟩
  · rw [hbacc, baroAltAccOf_coerce]
  · obtain ⟨v, hv, h1, h2, hev⟩ := geoVertAccOf_ok_inv o r.geo_vert_acc hgv
    exact ⟨v, hv, h1, h2, hev⟩
  · intro sv hv bv
    have ho2 : (setAccuracies p sv hv bv).opendroneid =
        some { o with
          loc_speedaccuracy := some sv
          loc_haccuracy := some hv
          loc_baroaccuracy := some bv } := by
      simp [setAccuracies, ho]
    have hbuild := create_row_build (setAccuracies p sv hv bv) now
      { o with
        loc_speedaccuracy := some sv
        loc_haccuracy := some hv
        loc_baroaccuracy := some bv }
      r.src_addr r.unique_id (r.timestampSecs, r.timestampTenth)
      (r.heading, r.gnd_speed, r.vert_speed, r.lat, r.lon)
      r.geo_alt r.geo_vert_acc (coerceAcc sv) (coerceAcc hv)
      ho2 hs hu ht hl hg hgv
      (speedAccOf_coerce _ sv rfl) (horzAccOf_coerce _ hv rfl)
    refine ⟨_, hbuild, rfl, rfl, ?_⟩
    dsimp only
    rw [baroAltAccOf_coerce]
    rfl
  · intro gv hrange
    have ho2 : (setGeoVertAcc p gv).opendroneid =
        some { o with loc_vaccuracy := some gv } := by
      simp [setGeoVertAcc, ho]
    have hgv2 : geoVertAccOf { o with loc_vaccuracy := some gv } =
        Except.error
          (PacketErr.invalidField "Geodetic Vertical Accuracy") := by
      unfold geoVertAccOf
      dsimp only
      rw [if_pos hrange]
    exact create_row_geo_vert_error (setGeoVertAcc p gv) now
      { o with loc_vaccuracy := some gv }
      r.src_addr r.unique_id (r.timestampSecs, r.timestampTenth)
      (r.heading, r.gnd_speed, r.vert_speed, r.lat, r.lon)
      r.geo_alt _ ho2 hs hu ht hl hg hgv2

/-- C2 witness: the amended theorem applied to the concrete base
packet, replacing the three coerced accuracies by the out-of-range
values 99, -3 and 100. -/
theorem C2_accuracy_coercion_witness :
    ∃ r2, create_row (setAccuracies basePkt 99 (-3) 100) 1700000000 =
        Except.ok r2 ∧
      r2.speed_acc = coerceAcc 99 ∧ r2.horz_acc = coerceAcc (-3) ∧
      r2.baro_alt_acc = coerceAcc 100 :=
  (C2_accuracy_coercion basePkt 1700000000 demoRow
    (by with_unfolding_all rfl)).2.1 99 (-3) 100

/-- Every channel passed to `set_channel` during one pass is drawn
from the snapshot the pass iterates. -/
theorem sweeperPass_calls_mem (oracle : String → ChanOutcome) :
    ∀ (snap : List (String × ℚ)) (d : ChannelDictionary) (ch : String),
      ch ∈ (sweeperPass oracle snap d).1 →
        ch ∈ scheduleChannels snap := by
  intro snap
  induction snap with
  | nil =>
    intro d ch hch
    simp [sweeperPass] at hch
  | cons hd rest ih =>
    obtain ⟨c, dw⟩ := hd
    intro d ch hch
    unfold sweeperPass at hch
    cases hsc : set_channel_model oracle c <;> simp only [hsc] at hch
    case ok =>
      rcases List.mem_cons.mp hch with rfl | hch2
      · simp [scheduleChannels]
      · simp only [scheduleChannels, List.map_cons, List.mem_cons]
        exact Or.inr (ih d ch hch2)
    case illegal =>
      rcases List.mem_cons.mp hch with rfl | hch2
      · simp [scheduleChannels]
      · simp only [scheduleChannels, List.map_cons, List.mem_cons]
        exact Or.inr (ih (removeChannel d c) ch hch2)
    case valueError =>
      rcases List.mem_cons.mp hch with rfl | hch2
      · simp [scheduleChannels]
      · simp only [scheduleChannels, List.map_cons, List.mem_cons]
        exact Or.inr (ih (removeChannel d c) ch hch2)
    case monitorLost =>
      rcases List.mem_singleton.mp hch with rfl
      simp [scheduleChannels]
    case otherFail =>
      rcases List.mem_singleton.mp hch with rfl
      simp [scheduleChannels]

/-- Removing a channel only shrinks the schedule. -/
theorem removeChannel_channels_sub (d : ChannelDictionary) (c ch : String)
    (h : ch ∈ scheduleChannels (removeChannel d c).channels) :
    ch ∈ scheduleChannels d.channels := by
  simp only [removeChannel, scheduleChannels, List.mem_map] at h ⊢
  obtain ⟨x, hx, rfl⟩ := h
  exact ⟨x, (List.mem_filter.mp hx).1, rfl⟩

/-- A pass never adds channels to the live schedule. -/
theorem sweeperPass_channels_mono (oracle : String → ChanOutcome) :
    ∀ (snap : List (String × ℚ)) (d : ChannelDictionary) (ch : String),
      ch ∈ scheduleChannels (sweeperPass oracle snap d).2.1.channels →
        ch ∈ scheduleChannels d.channels := by
  intro snap
  induction snap with
  | nil =>
    intro d ch hch
    simpa [sweeperPass] using hch
  | cons hd rest ih =>
    obtain ⟨c, dw⟩ := hd
    intro d ch hch
    unfold sweeperPass at hch
    cases hsc : set_channel_model oracle c <;> simp only [hsc] at hch
    case ok => exact ih d ch hch
    case illegal =>
      exact removeChannel_channels_sub d c ch (ih (removeChannel d c) ch hch)
    case valueError =>
      exact removeChannel_channels_sub d c ch (ih (removeChannel d c) ch hch)
    case monitorLost => exact hch
    case otherFail => exact hch

/-- The first pass of a run iterates the current schedule. -/
theorem sweeperRun_head_snapshot (oracle : String → ChanOutcome)
    (d : ChannelDictionary) (drains : List (List PyVal))
    (h : 0 < (sweeperRun oracle d drains).1.length) :
    ((sweeperRun oracle d drains).1.getD 0 emptyPassLog).snapshot =
      d.channels := by
  cases drains with
  | nil => simp [sweeperRun] at h
  | cons drain rest =>
    rw [sweeperRun.eq_def]
    dsimp only
    cases hf : (sweeperPass oracle d.channels d).2.2 with
    | some f => rfl
    | none =>
      cases hu : channelDictUpdate
          (sweeperPass oracle d.channels d).2.1.ch_pkt_count drain with
      | error e => rfl
      | ok counts2 => rfl

/-- C7 (amended): every `set_channel` call of a pass uses a channel of
that pass's schedule snapshot — the default sweep minus the channels
removed before the pass began, with no intersection against the
supported-channel list — and a channel absent from the snapshot of
pass `i` is called in no pass `j ≥ i`; in particular a channel removed
in pass `i` is never called from pass `i + 1` on, though it may still
be retried in the remainder of pass `i`'s snapshot. -/
theorem C7_sweeper_schedule (oracle : String → ChanOutcome) :
    ∀ (drains : List (List PyVal)) (d0 : ChannelDictionary),
      (∀ log ∈ (sweeperRun oracle d0 drains).1,
        ∀ ch ∈ log.calls, ch ∈ scheduleChannels log.snapshot) ∧
      (∀ i j : Nat, i ≤ j →
        j < (sweeperRun oracle d0 drains).1.length →
        ∀ ch, ch ∉ scheduleChannels
            (((sweeperRun oracle d0 drains).1.getD i
              emptyPassLog).snapshot) →
          ch ∉ ((sweeperRun oracle d0 drains).1.getD j
            emptyPassLog).calls) := by
  intro drains
  induction drains with
  | nil =>
    intro d0
    constructor
    · intro log hlog
      simp [sweeperRun] at hlog
    · intro i j _ hj
      simp [sweeperRun] at hj
  | cons drain rest ih =>
    intro d0
    have hpass := sweeperPass_calls_mem oracle d0.channels d0
    cases hf : (sweeperPass oracle d0.channels d0).2.2 with
    | some f =>
      have hrun : (sweeperRun oracle d0 (drain :: rest)).1 =
          [⟨d0.channels, (sweeperPass oracle d0.channels d0).1,
            (sweeperPass oracle d0.channels d0).2.1⟩] := by
        rw [sweeperRun.eq_def]
        dsimp only
        simp only [hf]
      constructor
      · intro log hlog
        rw [hrun] at hlog
        rcases List.mem_singleton.mp hlog with rfl
        exact hpass
      · intro i j hij hj ch hsnap
        have hj0 : j = 0 := by
          rw [hrun] at hj
          simpa using Nat.lt_one_iff.mp hj
        subst hj0
        have hi0 : i = 0 := Nat.le_zero.mp hij
        subst hi0
        simp only [hrun, List.getD_cons_zero] at hsnap ⊢
        intro hcall
        exact hsnap (hpass ch hcall)
    | none =>
      cases hu : channelDictUpdate
          (sweeperPass oracle d0.channels d0).2.1.ch_pkt_count drain with
      | error e =>
        have hrun : (sweeperRun oracle d0 (drain :: rest)).1 =
            [⟨d0.channels, (sweeperPass oracle d0.channels d0).1,
              (sweeperPass oracle d0.channels d0).2.1⟩] := by
          rw [sweeperRun.eq_def]
          dsimp only
          simp only [hf, hu]
        constructor
        · intro log hlog
          rw [hrun] at hlog
          rcases List.mem_singleton.mp hlog with rfl
          exact hpass
        · intro i j hij hj ch hsnap
          have hj0 : j = 0 := by
            rw [hrun] at hj
            simpa using Nat.lt_one_iff.mp hj
          subst hj0
          have hi0 : i = 0 := Nat.le_zero.mp hij
          subst hi0
          simp only [hrun, List.getD_cons_zero] at hsnap ⊢
          intro hcall
          exact hsnap (hpass ch hcall)
      | ok counts2 =>
        have hrun : (sweeperRun oracle d0 (drain :: rest)).1 =
            ⟨d0.channels, (sweeperPass oracle d0.channels d0).1,
              (sweeperPass oracle d0.channels d0).2.1⟩ ::
              (sweeperRun oracle
                { (sweeperPass oracle d0.channels d0).2.1 with
                  ch_pkt_count := counts2 } rest).1 := by
          rw [sweeperRun.eq_def]
          dsimp only
          simp only [hf, hu]
        obtain ⟨ih1, ih2⟩ := ih
          { (sweeperPass oracle d0.channels d0).2.1 with
            ch_pkt_count := counts2 }
        constructor
        · intro log hlog
          rw [hrun] at hlog
          rcases List.mem_cons.mp hlog with rfl | hlog2
          · exact hpass
          · exact ih1 log hlog2
        · intro i j hij hj ch hsnap
          rw [hrun] at hj
          simp only [List.length_cons] at hj
          cases i with
          | zero =>
            have hsnap0 : ch ∉ scheduleChannels d0.channels := by
              simpa only [hrun, List.getD_cons_zero] using hsnap
            cases j with
            | zero =>
              simp only [hrun, List.getD_cons_zero]
              intro hcall
              exact hsnap0 (hpass ch hcall)
            | succ k =>
              have hk : k < (sweeperRun oracle
                  { (sweeperPass oracle d0.channels d0).2.1 with
                    ch_pkt_count := counts2 } rest).1.length :=
                Nat.lt_of_succ_lt_succ hj
              have hk0 : 0 < (sweeperRun oracle
                  { (sweeperPass oracle d0.channels d0).2.1 with
                    ch_pkt_count := counts2 } rest).1.length :=
                Nat.lt_of_le_of_lt (Nat.zero_le k) hk
              have hstart : ch ∉ scheduleChannels
                  (((sweeperRun oracle
                    { (sweeperPass oracle d0.channels d0).2.1 with
                      ch_pkt_count := counts2 } rest).1.getD 0
                        emptyPassLog).snapshot) := by
                rw [sweeperRun_head_snapshot oracle _ rest hk0]
                intro hmem
                exact hsnap0 (sweeperPass_channels_mono oracle
                  d0.channels d0 ch hmem)
              have hrec := ih2 0 k (Nat.zero_le k) hk ch hstart
              simpa only [hrun, List.getD_cons_succ] using hrec
          | succ m =>
            cases j with
            | zero => exact absurd hij (by omega)
            | succ k =>
              have hsnap2 : ch ∉ scheduleChannels
                  (((sweeperRun oracle
                    { (sweeperPass oracle d0.channels d0).2.1 with
                      ch_pkt_count := counts2 } rest).1.getD m
                        emptyPassLog).snapshot) := by
                simpa only [hrun, List.getD_cons_succ] using hsnap
              have hrec := ih2 m k (Nat.le_of_succ_le_succ hij)
                (Nat.lt_of_succ_lt_succ hj) ch hsnap2
              simpa only [hrun, List.getD_cons_succ] using hrec

/-- C7 counterexample: with only channel 6 supported and a radio that
accepts everything, the very first pass calls `set_channel` with
channel 1, which is not in the default-sweep-intersected-with-supported
schedule the claim describes (no intersection is ever computed); and
with a radio that rejects channel 1 as illegal, one pass calls
channel 1 twice — the second call comes after the channel was removed,
because the iteration keeps walking the pass-start snapshot. -/
theorem C7_counterexample_no_intersection_and_same_pass_retry :
    ("1" ∈ ((sweeperRun allOkOracle (channelDictInit ["6"]) [[]]).1.headD
        ⟨[], [], channelDictInit []⟩).calls) ∧
    "1" ∉ claimedIntersection ["6"] ∧
    ((sweeperPass illegalOneOracle default_sweep
        (channelDictInit [])).1.count "1" = 2) ∧
    "1" ∉ scheduleChannels
      (sweeperPass illegalOneOracle default_sweep
        (channelDictInit [])).2.1.channels := by
  decide

/-- C7 witness: the amended theorem applied to the all-ok radio run;
channel 2 is outside the first snapshot, so it is never called. -/
theorem C7_sweeper_schedule_witness :
    "2" ∉ (((sweeperRun allOkOracle (channelDictInit ["6"]) [[]]).1.getD 0
      emptyPassLog).calls) :=
  (C7_sweeper_schedule allOkOracle [[]] (channelDictInit ["6"])).2 0 0
    (Nat.le_refl 0) (by decide) "2" (by decide)

end RemoteID
